import Mathlib

/-!
Verification development for the medical-billing backend.

The repository ingests clinical PDF documents, extracts their text
(`app/services/pdf_service.py`), sends the text to an external structured
extraction service (`app/services/claude_service.py`), and persists the
results as billing notes with child procedure/diagnosis rows
(`app/services/billing_service.py`), exposed through CRUD routes
(`app/routers/documents.py`, `app/routers/billing_notes.py`).

This file gives a shallow embedding of those operations:

* relational rows become Lean structures mirroring the SQLAlchemy models
  (`app/models/*.py`); UUID columns become `Nat`, float columns become `Rat`,
  datetime columns become `Nat` ticks;
* the database session becomes explicit state passing over `AppState`;
* the external collaborators (sha256, pdfplumber page text, the model
  provider, object storage) become function parameters, and the states
  record an explicit call trace for the text extractor and the extraction
  client so that invocation-count properties can be stated;
* fallible code returns `Except`.

Theorems after the definitions settle the frozen claims about the spec.
-/

/-- HTTP-level failures raised by routers (`HTTPException`) or by the
orchestrator (`ValueError`, surfaced as a 404/500-equivalent by callers). -/
inductive HttpError where
  | badRequest (detail : String)
  | notFound (detail : String)
  | serverError (detail : String)
deriving DecidableEq, Repr

/-- A calendar date as produced by Python `datetime.date`. -/
structure DateYMD where
  year : Nat
  month : Nat
  day : Nat
deriving DecidableEq, Repr

-- ── Pydantic extraction schemas (app/schemas/extraction.py) ──────────────

/-- `ExtractedCPTCode` pydantic model: one procedure entry of an extraction
result. -/
structure ExtractedCPTCode where
  cpt_code : String
  description : String
  supporting_text : String
  confidence : Rat
deriving DecidableEq, Repr

/-- `ExtractedICD10Code` pydantic model: one diagnosis entry of an extraction
result. -/
structure ExtractedICD10Code where
  icd10_code : String
  description : String
  supporting_text : String
  confidence : Rat
  is_primary : Bool
deriving DecidableEq, Repr

/-- `ExtractionResult` pydantic model: the structured output of the external
extraction service. -/
structure ExtractionResult where
  patient_name : Option String
  date_of_service : Option String
  provider_name : Option String
  clinical_summary : String
  procedures : List ExtractedCPTCode
  diagnoses : List ExtractedICD10Code
  billing_narrative : String
deriving DecidableEq, Repr

-- ── SQLAlchemy ORM rows (app/models/*.py) ────────────────────────────────

/-- `CPTCode` row (app/models/cpt_code.py): canonical procedure code. -/
structure CPTCode where
  id : Nat
  code : String
  description : String
  category : String
deriving DecidableEq, Repr

/-- `ICD10Code` row (app/models/icd10_code.py): canonical diagnosis code. -/
structure ICD10Code where
  id : Nat
  code : String
  description : String
  category : String
deriving DecidableEq, Repr

/-- `Document` row (app/models/document.py). -/
structure Document where
  id : Nat
  filename : String
  file_path : String
  file_hash : Option String
  extracted_text : Option String
  page_count : Option Nat
  uploaded_at : Nat
deriving DecidableEq, Repr

/-- `BillingNote` row (app/models/billing_note.py). -/
structure BillingNote where
  id : Nat
  document_id : Nat
  patient_name : Option String
  date_of_service : Option DateYMD
  provider_name : Option String
  clinical_summary : Option String
  billing_narrative : Option String
  status : String
  created_at : Nat
  updated_at : Nat
deriving DecidableEq, Repr

/-- `ExtractedCode` row (app/models/extracted_code.py). -/
structure ExtractedCode where
  id : Nat
  billing_note_id : Nat
  cpt_code_id : Option Nat
  cpt_code_raw : String
  description : Option String
  supporting_text : Option String
  confidence : Option Rat
  confirmed : Bool
deriving DecidableEq, Repr

/-- `ExtractedDiagnosis` row. Its model file is imported by
`app/models/__init__.py` but the file itself is not in the tree; the fields
are reconstructed from its construction sites in
`app/services/billing_service.py` and `app/routers/billing_notes.py` and from
spec section 3 (identity, owning BillingNote reference with cascade delete,
optional canonical reference, raw code string, optional
description/supporting-text/confidence, is-primary flag). -/
structure ExtractedDiagnosis where
  id : Nat
  billing_note_id : Nat
  icd10_code_id : Option Nat
  icd10_code_raw : String
  description : Option String
  supporting_text : Option String
  confidence : Option Rat
  is_primary : Bool
deriving DecidableEq, Repr

/-- The persistent state visible to the application: the relational tables,
the object storage bucket, the local scratch directory, and two call traces
(arguments of every text-extractor call and of every extraction-client call)
used to state invocation-count properties. -/
structure AppState where
  documents : List Document
  billing_notes : List BillingNote
  extracted_codes : List ExtractedCode
  extracted_diagnoses : List ExtractedDiagnosis
  cpt_codes : List CPTCode
  icd10_codes : List ICD10Code
  storage_objects : List (String × List Nat)
  local_files : List (String × List Nat)
  extract_calls : List String
  claude_calls : List String
deriving DecidableEq, Repr

-- ── Generic helpers ──────────────────────────────────────────────────────

/-- Update the first element satisfying `p` (the row returned by
`scalar_one_or_none` and then mutated in place by the ORM). -/
def updateFirst (p : α → Bool) (f : α → α) : List α → List α
  | [] => []
  | x :: xs => if p x then f x :: xs else x :: updateFirst p f xs

/-- Python truthiness of an optional string: `not s` is true for `None` and
for the empty string. -/
def strFalsy : Option String → Bool
  | none => true
  | some s => s.isEmpty

-- ── Text Extractor (app/services/pdf_service.py) ─────────────────────────

/-- The `f"--- Page {i + 1} ---\n{text}"` segment built for page index `i`
(0-based) whose `extract_text()` returned `s`. -/
def pageSegment (i : Nat) (s : String) : String :=
  "--- Page " ++ toString (i + 1) ++ " ---\n" ++ s

/-- `extract_text_from_pdf` (app/services/pdf_service.py). A PDF is
abstracted as the list of its pages' `page.extract_text()` results
(`none` when the library returns `None`). The imperative loop appending to
`pages_text` becomes a left fold over the enumerated pages; `if text:` skips
both `None` and the empty string (Python truthiness). -/
def extract_text_from_pdf (pages : List (Option String)) : String × Nat :=
  let page_count := pages.length
  let pages_text := pages.enum.foldl
    (fun acc it =>
      match it.2 with
      | some s => if s.isEmpty then acc else acc ++ [pageSegment it.1 s]
      | none => acc)
    []
  (String.intercalate "\n\n" pages_text, page_count)

/-- The spec's description of the contributing page segments, written as a
direct recursion over the pages with their 0-based index: each page yielding
nonempty text contributes its marker-prefixed segment in page order, and a
page yielding no extractable text contributes no segment at all. -/
def pageSegmentsFrom (i : Nat) : List (Option String) → List String
  | [] => []
  | t :: rest =>
    match t with
    | some s =>
      if s.isEmpty then pageSegmentsFrom (i + 1) rest
      else pageSegment i s :: pageSegmentsFrom (i + 1) rest
    | none => pageSegmentsFrom (i + 1) rest

/-- The contributing segments of a whole document, pages numbered from 1 in
the markers (index 0 internally). -/
def pageSegmentsSpec (pages : List (Option String)) : List String :=
  pageSegmentsFrom 0 pages

-- ── Code Extraction Client (app/services/claude_service.py) ──────────────

/-- One content block of the external service's response: either a tool-use
block carrying a tool name and a structured input of type `J` (the JSON
object), or a plain text block. -/
inductive ContentBlock (J : Type) where
  | tool_use (name : String) (input : J)
  | text (body : String)
deriving DecidableEq, Repr

/-- How a call to `extract_cpt_codes` can fail once the provider has
answered: `validation_error` models an uncaught pydantic `ValidationError`
raised while building `ExtractionResult(**block.input)` from a tool block;
`type_error` models the uncaught `TypeError` raised by
`ExtractionResult(**data)` in the fallback loop when `json.loads` succeeded
but produced a non-mapping (`**` requires a mapping, and `TypeError` is not
among the caught exception classes); `no_valid_extraction` models the
explicit `ValueError("Claude did not return a valid extraction result")`. -/
inductive ClaudeError where
  | validation_error
  | type_error
  | no_valid_extraction
deriving DecidableEq, Repr

/-- The outcome of `json.loads` on one text block's body: it can raise
`JSONDecodeError`, succeed with a JSON value that is not an object
(a number, string, array, boolean or null), or succeed with a JSON object
of type `J`. -/
inductive JsonParse (J : Type) where
  | decodeError
  | nonMapping
  | mapping (obj : J)
deriving DecidableEq, Repr

/-- The first loop's selector of `extract_cpt_codes`
(app/services/claude_service.py): the input of the first `tool_use` block
named `submit_extraction`. -/
def submitToolInput : ContentBlock J → Option J
  | .tool_use n input => if n == "submit_extraction" then some input else none
  | .text _ => none

/-- The fallback loop of `extract_cpt_codes`
(app/services/claude_service.py): scan the blocks in order; non-text blocks
are passed over; for a text block, `json.loads` raising `JSONDecodeError`
is caught and the block skipped; a decoded non-mapping makes
`ExtractionResult(**data)` raise `TypeError`, which the
`except (json.JSONDecodeError, ValueError)` clause does not catch, so the
whole call aborts; a decoded mapping that fails pydantic validation raises
`ValidationError`, a `ValueError`, caught and skipped; a decoded mapping
that validates is returned. Falling off the end raises the explicit
`ValueError("Claude did not return a valid extraction result")`. -/
def textFallbackLoop (validate : J → Option ExtractionResult)
    (parseJson : String → JsonParse J) :
    List (ContentBlock J) → Except ClaudeError ExtractionResult
  | [] => .error .no_valid_extraction
  | .tool_use _ _ :: rest => textFallbackLoop validate parseJson rest
  | .text body :: rest =>
    match parseJson body with
    | .decodeError => textFallbackLoop validate parseJson rest
    | .nonMapping => .error .type_error
    | .mapping obj =>
      match validate obj with
      | some r => .ok r
      | none => textFallbackLoop validate parseJson rest

/-- The response-resolution logic of `extract_cpt_codes`
(app/services/claude_service.py, after the provider call returns).
`validate` models `ExtractionResult(**data)` on a mapping: `none` when
pydantic validation fails. First loop: the first `tool_use` block named
`submit_extraction` is taken as authoritative; a pydantic failure there is
raised uncaught (the first loop has no handler), so it aborts the call
without reaching the fallback. Otherwise the fallback loop over text
blocks runs. -/
def extract_cpt_codes (validate : J → Option ExtractionResult)
    (parseJson : String → JsonParse J) (blocks : List (ContentBlock J)) :
    Except ClaudeError ExtractionResult :=
  match blocks.findSome? submitToolInput with
  | some input =>
    match validate input with
    | some r => .ok r
    | none => .error .validation_error
  | none => textFallbackLoop validate parseJson blocks

/-- Whether the fallback loop passes over a block without stopping: true
for non-text blocks, for text blocks whose body fails JSON decoding, and
for text blocks decoding to a mapping that fails validation; false for a
validating mapping (accepted) and for a non-mapping (uncaught TypeError). -/
def fallbackSkips (validate : J → Option ExtractionResult)
    (parseJson : String → JsonParse J) : ContentBlock J → Bool
  | .tool_use _ _ => true
  | .text body =>
    match parseJson body with
    | .decodeError => true
    | .nonMapping => false
    | .mapping obj => (validate obj).isNone

-- ── Date parsing (app/services/billing_service.py, _parse_date) ──────────

/-- Numeric value of an ASCII digit character. -/
def digitVal (c : Char) : Nat := c.toNat - 48

/-- `[1-9]` as a character class. -/
def isOneNine (c : Char) : Bool := c.isDigit && c != '0'

/-- The alternatives of CPython strptime directive `%m`, whose compiled
regex is `1[0-2]|0[1-9]|[1-9]`, in preference order: each alternative gives
the month value and the remaining input. -/
def monthAlts : List Char → List (Nat × List Char)
  | c1 :: c2 :: rest =>
    (if c1 = '1' && (c2 = '0' || c2 = '1' || c2 = '2') then
       [(10 + digitVal c2, rest)] else []) ++
    (if c1 = '0' && isOneNine c2 then [(digitVal c2, rest)] else []) ++
    (if isOneNine c1 then [(digitVal c1, c2 :: rest)] else [])
  | [c1] => if isOneNine c1 then [(digitVal c1, [])] else []
  | [] => []

/-- The alternatives of CPython strptime directive `%d`, whose compiled
regex is `3[01]|[12]\d|0[1-9]|[1-9]`, in preference order. -/
def dayAlts : List Char → List (Nat × List Char)
  | c1 :: c2 :: rest =>
    (if c1 = '3' && (c2 = '0' || c2 = '1') then
       [(30 + digitVal c2, rest)] else []) ++
    (if (c1 = '1' || c1 = '2') && c2.isDigit then
       [(10 * digitVal c1 + digitVal c2, rest)] else []) ++
    (if c1 = '0' && isOneNine c2 then [(digitVal c2, rest)] else []) ++
    (if isOneNine c1 then [(digitVal c1, c2 :: rest)] else [])
  | [c1] => if isOneNine c1 then [(digitVal c1, [])] else []
  | [] => []

/-- Leap years of the proleptic Gregorian calendar used by Python
`datetime`. -/
def isLeapYear (y : Nat) : Bool :=
  y % 4 = 0 && (y % 100 != 0 || y % 400 = 0)

/-- `datetime`'s days-in-month table. -/
def daysInMonth (y m : Nat) : Nat :=
  if m = 2 then (if isLeapYear y then 29 else 28)
  else if m = 4 || m = 6 || m = 9 || m = 11 then 30
  else 31

/-- The range and calendar validation performed by the `datetime.date`
constructor (`MINYEAR = 1`, `MAXYEAR = 9999`); an invalid combination raises
`ValueError`. -/
def datetimeValid (y m d : Nat) : Bool :=
  1 ≤ y && y ≤ 9999 && 1 ≤ m && m ≤ 12 && 1 ≤ d && d ≤ daysInMonth y m

/-- The regex match of `datetime.strptime(s, "%Y-%m-%d")` on the character
list of `s`: `%Y` compiles to `\d\d\d\d` (exactly four digits), then the
literal hyphen, then `%m`, the literal hyphen, and `%d`. The regex engine
tries the `%m` alternatives in preference order and backtracks when the
rest of the pattern fails; the pattern ends after `%d`, so the first
matching `%d` alternative completes the match and the unconsumed remainder
is returned (strptime then rejects any leftover as unconverted data). -/
def strptimeYmdMatch : List Char → Option (Nat × Nat × Nat × List Char)
  | y1 :: y2 :: y3 :: y4 :: '-' :: rest =>
    if y1.isDigit && y2.isDigit && y3.isDigit && y4.isDigit then
      let year := 1000 * digitVal y1 + 100 * digitVal y2 +
        10 * digitVal y3 + digitVal y4
      (monthAlts rest).findSome? (fun ma =>
        match ma.2 with
        | '-' :: afterHyphen =>
          match dayAlts afterHyphen with
          | da :: _ => some (year, ma.1, da.1, da.2)
          | [] => none
        | _ => none)
    else none
  | _ => none

/-- `_parse_date` (app/services/billing_service.py): `None` and the empty
string are falsy and give `None`; otherwise
`datetime.strptime(date_str, "%Y-%m-%d").date()` with `ValueError` (a failed
match, unconverted trailing data, or an invalid calendar date) caught and
turned into `None`. Digits are modelled as ASCII digits. -/
def parse_date (date_str : Option String) : Option DateYMD :=
  match date_str with
  | none => none
  | some s =>
    if s.isEmpty then none
    else
      match strptimeYmdMatch s.toList with
      | some (y, m, d, remaining) =>
        if remaining.isEmpty && datetimeValid y m d then
          some ⟨y, m, d⟩
        else none
      | none => none

-- ── Cross-referencing (app/services/billing_service.py) ──────────────────

/-- Lookup in the dict comprehension
`{code.code: code for code in result.scalars().all()}` followed by
`.get(key)`: insertion for a duplicate key overwrites, so the lookup returns
the last row in table order whose `code` column equals the key exactly
(case-sensitive string equality, no normalization). -/
def cptLookup (table : List CPTCode) (key : String) : Option CPTCode :=
  match table with
  | [] => none
  | c :: rest =>
    match cptLookup rest key with
    | some v => some v
    | none => if c.code = key then some c else none

/-- Same dict-comprehension lookup for the ICD-10 reference table. -/
def icdLookup (table : List ICD10Code) (key : String) : Option ICD10Code :=
  match table with
  | [] => none
  | c :: rest =>
    match icdLookup rest key with
    | some v => some v
    | none => if c.code = key then some c else none

/-- `_create_extracted_codes` (app/services/billing_service.py): one
`ExtractedCode` row per procedure entry of the extraction result,
cross-referenced against the CPT table; `ids` supplies the generated
`uuid.uuid4()` of the row created for the entry at each position. -/
def create_extracted_codes (table : List CPTCode) (ids : Nat → Nat)
    (billing_note_id : Nat) (extraction : ExtractionResult) :
    List ExtractedCode :=
  (extraction.procedures.enum).map (fun it =>
    let proc := it.2
    let cpt_ref := cptLookup table proc.cpt_code
    { id := ids it.1
      billing_note_id := billing_note_id
      cpt_code_id := cpt_ref.map (fun c => c.id)
      cpt_code_raw := proc.cpt_code
      description := some proc.description
      supporting_text := some proc.supporting_text
      confidence := some proc.confidence
      confirmed := false })

/-- `_create_extracted_diagnoses` (app/services/billing_service.py): one
`ExtractedDiagnosis` row per diagnosis entry, cross-referenced against the
ICD-10 table, preserving the reported `is_primary` flag verbatim. -/
def create_extracted_diagnoses (table : List ICD10Code) (ids : Nat → Nat)
    (billing_note_id : Nat) (extraction : ExtractionResult) :
    List ExtractedDiagnosis :=
  (extraction.diagnoses.enum).map (fun it =>
    let diag := it.2
    let icd_ref := icdLookup table diag.icd10_code
    { id := ids it.1
      billing_note_id := billing_note_id
      icd10_code_id := icd_ref.map (fun c => c.id)
      icd10_code_raw := diag.icd10_code
      description := some diag.description
      supporting_text := some diag.supporting_text
      confidence := some diag.confidence
      is_primary := diag.is_primary })

-- ── Extraction Orchestrator (app/services/billing_service.py) ────────────

/-- The per-call environment of `process_document`: the two external
collaborators (pdfplumber text extraction, which may raise, and the
extraction-client call, which may raise), plus the `uuid.uuid4()` values and
`datetime.utcnow()` tick generated during the call. -/
structure ProcessDeps where
  extract_text : String → Except String (String × Nat)
  claude : String → Except String ExtractionResult
  note_id : Nat
  code_ids : Nat → Nat
  diag_ids : Nat → Nat
  now : Nat

/-- Steps 3-7 of `process_document`, after the document's text is known:
invoke the extraction client (recorded in `claude_calls`), create the
billing note with status `"draft"`, create the child rows, commit. On a
client failure the exception propagates (the text update flushed by step 2
stays in the returned state; committing or rolling it back belongs to the
excluded persistence layer and the callers modelled here commit it). -/
def process_after_text (deps : ProcessDeps) (st : AppState)
    (document : Document) : AppState × Except String BillingNote :=
  let text := document.extracted_text.getD ""
  let st1 := { st with claude_calls := st.claude_calls ++ [text] }
  match deps.claude text with
  | .error e => (st1, .error e)
  | .ok extraction =>
    let billing_note : BillingNote :=
      { id := deps.note_id
        document_id := document.id
        patient_name := extraction.patient_name
        date_of_service := parse_date extraction.date_of_service
        provider_name := extraction.provider_name
        clinical_summary := some extraction.clinical_summary
        billing_narrative := some extraction.billing_narrative
        status := "draft"
        created_at := deps.now
        updated_at := deps.now }
    let codes := create_extracted_codes st1.cpt_codes deps.code_ids
      billing_note.id extraction
    let diags := create_extracted_diagnoses st1.icd10_codes deps.diag_ids
      billing_note.id extraction
    let st2 :=
      { st1 with
        billing_notes := st1.billing_notes ++ [billing_note]
        extracted_codes := st1.extracted_codes ++ codes
        extracted_diagnoses := st1.extracted_diagnoses ++ diags }
    (st2, .ok billing_note)

/-- `process_document` (app/services/billing_service.py): resolve the
document (`ValueError` if absent), extract text only when the document's
`extracted_text` is falsy (recording the extractor invocation in
`extract_calls` and persisting text and page count onto the row), then run
the rest of the pipeline. Errors are returned as the raised exception's
message. -/
def process_document (deps : ProcessDeps) (st : AppState)
    (document_id : Nat) : AppState × Except String BillingNote :=
  match st.documents.find? (fun d => d.id == document_id) with
  | none => (st, .error ("Document " ++ toString document_id ++ " not found"))
  | some document =>
    if strFalsy document.extracted_text then
      let st1 := { st with extract_calls := st.extract_calls ++ [document.file_path] }
      match deps.extract_text document.file_path with
      | .error e => (st1, .error e)
      | .ok tp =>
        let document2 :=
          { document with extracted_text := some tp.1, page_count := some tp.2 }
        let st2 :=
          { st1 with
            documents := updateFirst (fun d => d.id == document_id)
              (fun d => { d with extracted_text := some tp.1, page_count := some tp.2 })
              st1.documents }
        process_after_text deps st2 document2
    else
      process_after_text deps st document

-- ── Document upload (app/routers/documents.py) ───────────────────────────

/-- The per-call environment of `upload_document`: the content hash function
(sha256 hex digest), the generated `uuid.uuid4()` for a fresh document, the
configured scratch directory, and the upload timestamp. -/
structure UploadDeps where
  hash : List Nat → String
  new_id : Nat
  upload_dir : String
  now : Nat

/-- ASCII lowercasing of one character (`str.lower`; filenames are treated
as ASCII here). -/
def lowerChar (c : Char) : Char :=
  if 'A' ≤ c ∧ c ≤ 'Z' then Char.ofNat (c.toNat + 32) else c

/-- `l` ends with the character sequence `p` (`str.endswith`). -/
def endsWithList (l p : List Char) : Bool :=
  p.length ≤ l.length && (l.drop (l.length - p.length) == p)

/-- The filename guard of `upload_document`: Python
`not file.filename or not file.filename.lower().endswith(".pdf")`. -/
def isAcceptedPdfName (filename : String) : Bool :=
  !filename.isEmpty && endsWithList (filename.toList.map lowerChar) ".pdf".toList

/-- The non-duplicate path of `upload_document` (app/routers/documents.py),
from the `file_id = uuid.uuid4()` line on: store the bytes in the bucket
under a path derived from the fresh identity and original filename, write
the transient local copy, create the document row pointing at the local
path, attempt processing (exceptions caught and logged), rewrite the row's
path to the storage path, remove the local copy best-effort
(`os.remove` failures swallowed), and return the refreshed row. -/
def upload_fresh (udeps : UploadDeps) (pdeps : ProcessDeps)
    (st : AppState) (filename : String) (content : List Nat)
    (file_hash : String) : AppState × Except HttpError Document :=
  let file_id := udeps.new_id
  let safe_filename := toString file_id ++ "_" ++ filename
  let storage_path := "pdfs/" ++ safe_filename
  let local_path := udeps.upload_dir ++ "/" ++ safe_filename
  let document : Document :=
    { id := file_id
      filename := filename
      file_path := local_path
      file_hash := some file_hash
      extracted_text := none
      page_count := none
      uploaded_at := udeps.now }
  let st1 :=
    { st with
      storage_objects := st.storage_objects ++ [(storage_path, content)]
      local_files := st.local_files ++ [(local_path, content)]
      documents := st.documents ++ [document] }
  let st2 := (process_document pdeps st1 file_id).1
  let st3 :=
    { st2 with
      documents := updateFirst (fun d => d.id == file_id)
        (fun d => { d with file_path := storage_path }) st2.documents }
  let st4 :=
    { st3 with local_files := st3.local_files.filter (fun f => f.1 != local_path) }
  match st4.documents.find? (fun d => d.id == file_id) with
  | some d => (st4, .ok d)
  | none => (st4, .error (.serverError "document row lost"))

/-- `upload_document` (app/routers/documents.py): reject non-PDF filenames;
hash the raw bytes and short-circuit to the existing document on a hash hit
(returning it as-is with nothing stored, created or processed); otherwise
run the non-duplicate path. -/
def upload_document (udeps : UploadDeps) (pdeps : ProcessDeps)
    (st : AppState) (filename : String) (content : List Nat) :
    AppState × Except HttpError Document :=
  if !isAcceptedPdfName filename then
    (st, .error (.badRequest "Only PDF files are accepted"))
  else
    let file_hash := udeps.hash content
    match st.documents.find? (fun d => d.file_hash == some file_hash) with
    | some existing_doc => (st, .ok existing_doc)
    | none => upload_fresh udeps pdeps st filename content file_hash

-- ── Review Store (app/routers/billing_notes.py) ──────────────────────────

/-- `get_billing_note`: fetch one note by identity, 404 when absent (the
children and document filename loaded alongside are reachable from the
state and do not change the row returned here). -/
def get_billing_note (st : AppState) (note_id : Nat) :
    Except HttpError BillingNote :=
  match st.billing_notes.find? (fun n => n.id == note_id) with
  | none => .error (.notFound "Billing note not found")
  | some note => .ok note

/-- The row query shared by the code endpoints (confirm, edit, delete):
`select(ExtractedCode).where(ExtractedCode.id == code_id,
ExtractedCode.billing_note_id == note_id)`. -/
def lookup_extracted_code (st : AppState) (note_id code_id : Nat) :
    Option ExtractedCode :=
  st.extracted_codes.find?
    (fun c => c.id == code_id && c.billing_note_id == note_id)

/-- The row query shared by the diagnosis endpoints (edit, delete). -/
def lookup_extracted_diagnosis (st : AppState) (note_id diag_id : Nat) :
    Option ExtractedDiagnosis :=
  st.extracted_diagnoses.find?
    (fun d => d.id == diag_id && d.billing_note_id == note_id)

/-- `delete_billing_note`: 404 when the note is absent (the session has done
nothing but a select, so the state is returned untouched); otherwise delete
the row. The declared relationships on `BillingNote`
(`cascade="all, delete-orphan"` in app/models/billing_note.py, with
`ondelete="CASCADE"` foreign keys on the child tables) remove every
`ExtractedCode` and `ExtractedDiagnosis` row owned by the note. -/
def delete_billing_note (st : AppState) (note_id : Nat) :
    AppState × Except HttpError String :=
  match st.billing_notes.find? (fun n => n.id == note_id) with
  | none => (st, .error (.notFound "Billing note not found"))
  | some _ =>
    ({ st with
       billing_notes := st.billing_notes.filter (fun n => n.id != note_id)
       extracted_codes :=
         st.extracted_codes.filter (fun c => c.billing_note_id != note_id)
       extracted_diagnoses :=
         st.extracted_diagnoses.filter (fun d => d.billing_note_id != note_id) },
     .ok "Billing note deleted")

/-- `confirm_extracted_code`: resolve the code by the (code identity, note
identity) pair; 404 when no row matches both, with the state untouched (the
session only ran a select before the raise); otherwise set the matched
row's `confirmed` flag to the request body's value and report it back. -/
def confirm_extracted_code (st : AppState) (note_id code_id : Nat)
    (body_confirmed : Bool) : AppState × Except HttpError Bool :=
  match lookup_extracted_code st note_id code_id with
  | none => (st, .error (.notFound "Extracted code not found"))
  | some _ =>
    ({ st with
       extracted_codes := updateFirst
         (fun c => c.id == code_id && c.billing_note_id == note_id)
         (fun c => { c with confirmed := body_confirmed })
         st.extracted_codes },
     .ok body_confirmed)

/-- `AddCodeRequest` (app/schemas/billing_note.py). -/
structure AddCodeRequest where
  cpt_code_raw : String
  description : Option String
  supporting_text : Option String
  confidence : Option Rat
deriving DecidableEq, Repr

/-- `AddDiagnosisRequest` (app/schemas/billing_note.py). -/
structure AddDiagnosisRequest where
  icd10_code_raw : String
  description : Option String
  supporting_text : Option String
  confidence : Option Rat
  is_primary : Bool
deriving DecidableEq, Repr

/-- `add_extracted_code`: verify the note exists (404 otherwise), then
insert a new row with `cpt_code_id=None` and `confirmed=False`; the
reference tables are never consulted. `new_id` is the generated
`uuid.uuid4()`. -/
def add_extracted_code (st : AppState) (note_id : Nat)
    (body : AddCodeRequest) (new_id : Nat) :
    AppState × Except HttpError ExtractedCode :=
  match st.billing_notes.find? (fun n => n.id == note_id) with
  | none => (st, .error (.notFound "Billing note not found"))
  | some _ =>
    let code : ExtractedCode :=
      { id := new_id
        billing_note_id := note_id
        cpt_code_id := none
        cpt_code_raw := body.cpt_code_raw
        description := body.description
        supporting_text := body.supporting_text
        confidence := body.confidence
        confirmed := false }
    ({ st with extracted_codes := st.extracted_codes ++ [code] }, .ok code)

/-- `add_extracted_diagnosis`: verify the note exists (404 otherwise), then
insert a new row with `icd10_code_id=None`; the reference tables are never
consulted. -/
def add_extracted_diagnosis (st : AppState) (note_id : Nat)
    (body : AddDiagnosisRequest) (new_id : Nat) :
    AppState × Except HttpError ExtractedDiagnosis :=
  match st.billing_notes.find? (fun n => n.id == note_id) with
  | none => (st, .error (.notFound "Billing note not found"))
  | some _ =>
    let diag : ExtractedDiagnosis :=
      { id := new_id
        billing_note_id := note_id
        icd10_code_id := none
        icd10_code_raw := body.icd10_code_raw
        description := body.description
        supporting_text := body.supporting_text
        confidence := body.confidence
        is_primary := body.is_primary }
    ({ st with extracted_diagnoses := st.extracted_diagnoses ++ [diag] }, .ok diag)

-- ── Specification-side definitions ───────────────────────────────────────

/-- The spec's "strict 4-digit-year/2-digit-month/2-digit-day form": exactly
ten characters, digits everywhere except hyphens at positions 4 and 7.
Written from the spec's words, for comparison with `parse_date`. -/
def isStrictYmdForm (s : String) : Bool :=
  match s.toList with
  | [y1, y2, y3, y4, '-', m1, m2, '-', d1, d2] =>
    y1.isDigit && y2.isDigit && y3.isDigit && y4.isDigit &&
    m1.isDigit && m2.isDigit && d1.isDigit && d2.isDigit
  | _ => false

/-- A concrete extraction result used to instantiate theorems on concrete
inputs. -/
def sampleExtraction : ExtractionResult :=
  { patient_name := none
    date_of_service := none
    provider_name := none
    clinical_summary := "summary"
    procedures := []
    diagnoses := []
    billing_narrative := "justification" }

/-- A concrete billing note, document, child rows and state used to
instantiate theorems on concrete inputs. -/
def sampleNote : BillingNote :=
  { id := 1, document_id := 5, patient_name := some "Pat"
    date_of_service := none, provider_name := none, clinical_summary := none
    billing_narrative := none, status := "draft", created_at := 0
    updated_at := 0 }

def sampleDoc : Document :=
  { id := 5, filename := "note.pdf", file_path := "pdfs/5_note.pdf"
    file_hash := some "abc", extracted_text := some "text"
    page_count := some 1, uploaded_at := 0 }

def sampleCptRow : CPTCode :=
  { id := 3, code := "95819", description := "EEG", category := "Neurology" }

def sampleIcdRow : ICD10Code :=
  { id := 4, code := "G40.309", description := "Epilepsy"
    category := "Neurology" }

def sampleCode : ExtractedCode :=
  { id := 21, billing_note_id := 1, cpt_code_id := some 3
    cpt_code_raw := "95819", description := none, supporting_text := none
    confidence := none, confirmed := false }

def sampleDiag : ExtractedDiagnosis :=
  { id := 22, billing_note_id := 1, icd10_code_id := none
    icd10_code_raw := "G40.309", description := none, supporting_text := none
    confidence := none, is_primary := true }

def sampleState : AppState :=
  { documents := [sampleDoc], billing_notes := [sampleNote]
    extracted_codes := [sampleCode], extracted_diagnoses := [sampleDiag]
    cpt_codes := [sampleCptRow], icd10_codes := [sampleIcdRow]
    storage_objects := [], local_files := [], extract_calls := []
    claude_calls := [] }

/-- A document that has not been processed yet (no extracted text). -/
def unprocessedDoc : Document :=
  { id := 7, filename := "scan.pdf", file_path := "up/7_scan.pdf"
    file_hash := some "h7", extracted_text := none, page_count := none
    uploaded_at := 0 }

/-- A state holding only `unprocessedDoc`. -/
def unprocessedState : AppState :=
  { documents := [unprocessedDoc], billing_notes := [], extracted_codes := []
    extracted_diagnoses := [], cpt_codes := [], icd10_codes := []
    storage_objects := [], local_files := [], extract_calls := []
    claude_calls := [] }

/-- Processing dependencies whose text extractor finds no extractable text
(pdfplumber returns an empty concatenation, a real outcome for scanned
PDFs without a text layer) and whose extraction client succeeds. -/
def emptyTextDeps : ProcessDeps :=
  { extract_text := fun _ => .ok ("", 1)
    claude := fun _ => .ok sampleExtraction
    note_id := 41, code_ids := fun i => 100 + i, diag_ids := fun i => 200 + i
    now := 9 }

/-- Processing dependencies whose text extractor finds nonempty text. -/
def textDeps : ProcessDeps :=
  { extract_text := fun _ => .ok ("Visit note", 2)
    claude := fun _ => .ok sampleExtraction
    note_id := 42, code_ids := fun i => 110 + i, diag_ids := fun i => 210 + i
    now := 9 }

-- ── Helper lemmas ────────────────────────────────────────────────────────

theorem cptLookup_isSome_iff (table : List CPTCode) (key : String) :
    (cptLookup table key).isSome = true ↔ ∃ c ∈ table, c.code = key := by
  induction table with
  | nil => simp [cptLookup]
  | cons c rest ih =>
    simp only [cptLookup]
    cases h : cptLookup rest key with
    | some v =>
      rw [h] at ih
      simp only [Option.isSome_some, true_iff] at ih
      simp only [Option.isSome_some, true_iff, List.mem_cons]
      obtain ⟨w, hw, hc⟩ := ih
      exact ⟨w, Or.inr hw, hc⟩
    | none =>
      rw [h] at ih
      simp only [Option.isSome_none, Bool.false_eq_true, false_iff] at ih
      by_cases hc : c.code = key
      · simp only [if_pos hc, Option.isSome_some, true_iff]
        exact ⟨c, List.mem_cons_self c rest, hc⟩
      · simp only [if_neg hc, Option.isSome_none, Bool.false_eq_true, false_iff,
          List.mem_cons]
        push_neg at ih ⊢
        intro x hx
        rcases hx with rfl | hx
        · exact hc
        · exact ih x hx

theorem icdLookup_isSome_iff (table : List ICD10Code) (key : String) :
    (icdLookup table key).isSome = true ↔ ∃ c ∈ table, c.code = key := by
  induction table with
  | nil => simp [icdLookup]
  | cons c rest ih =>
    simp only [icdLookup]
    cases h : icdLookup rest key with
    | some v =>
      rw [h] at ih
      simp only [Option.isSome_some, true_iff] at ih
      simp only [Option.isSome_some, true_iff, List.mem_cons]
      obtain ⟨w, hw, hc⟩ := ih
      exact ⟨w, Or.inr hw, hc⟩
    | none =>
      rw [h] at ih
      simp only [Option.isSome_none, Bool.false_eq_true, false_iff] at ih
      by_cases hc : c.code = key
      · simp only [if_pos hc, Option.isSome_some, true_iff]
        exact ⟨c, List.mem_cons_self c rest, hc⟩
      · simp only [if_neg hc, Option.isSome_none, Bool.false_eq_true, false_iff,
          List.mem_cons]
        push_neg at ih ⊢
        intro x hx
        rcases hx with rfl | hx
        · exact hc
        · exact ih x hx

theorem enumFrom_map_map {α β γ : Type} (f : Nat × α → β) (g : β → γ)
    (q : α → γ) (hq : ∀ i a, g (f (i, a)) = q a) :
    ∀ (n : Nat) (l : List α), ((List.enumFrom n l).map f).map g = l.map q
  | _, [] => rfl
  | n, a :: l => by
    simp only [List.enumFrom, List.map_cons, hq]
    rw [enumFrom_map_map f g q hq (n + 1) l]

theorem enumFrom_map_length {α β : Type} (f : Nat × α → β) :
    ∀ (n : Nat) (l : List α), ((List.enumFrom n l).map f).length = l.length
  | _, [] => rfl
  | n, a :: l => by
    simp only [List.enumFrom, List.map_cons, List.length_cons]
    rw [enumFrom_map_length f (n + 1) l]

theorem enum_map_map {α β γ : Type} (f : Nat × α → β) (g : β → γ)
    (q : α → γ) (hq : ∀ i a, g (f (i, a)) = q a) (l : List α) :
    (l.enum.map f).map g = l.map q :=
  enumFrom_map_map f g q hq 0 l

theorem enum_map_length {α β : Type} (f : Nat × α → β) (l : List α) :
    (l.enum.map f).length = l.length :=
  enumFrom_map_length f 0 l

/-- C1: for every extraction result, the orchestrator cross-references each
procedure and diagnosis entry against the reference tables by an exact,
case-sensitive string match between the entry's raw code and a canonical
code, and creates exactly one child row per entry: the row always carries
the entry's raw code string, its canonical reference field carries the id of
the matched canonical row exactly when an exact match exists and is empty
otherwise, and no entry is dropped (one row per entry, in order). -/
theorem C1_crossref_child_rows (cpt_table : List CPTCode)
    (icd_table : List ICD10Code) (cids dids : Nat → Nat) (note_id : Nat)
    (extraction : ExtractionResult) :
    (create_extracted_codes cpt_table cids note_id extraction).length
        = extraction.procedures.length ∧
    (create_extracted_codes cpt_table cids note_id extraction).map
        (fun r => r.cpt_code_raw)
      = extraction.procedures.map (fun p => p.cpt_code) ∧
    (create_extracted_codes cpt_table cids note_id extraction).map
        (fun r => r.cpt_code_id)
      = extraction.procedures.map
          (fun p => (cptLookup cpt_table p.cpt_code).map (fun c => c.id)) ∧
    (∀ key, (cptLookup cpt_table key).isSome = true
        ↔ ∃ c ∈ cpt_table, c.code = key) ∧
    (create_extracted_diagnoses icd_table dids note_id extraction).length
        = extraction.diagnoses.length ∧
    (create_extracted_diagnoses icd_table dids note_id extraction).map
        (fun r => r.icd10_code_raw)
      = extraction.diagnoses.map (fun d => d.icd10_code) ∧
    (create_extracted_diagnoses icd_table dids note_id extraction).map
        (fun r => r.icd10_code_id)
      = extraction.diagnoses.map
          (fun d => (icdLookup icd_table d.icd10_code).map (fun c => c.id)) ∧
    (∀ key, (icdLookup icd_table key).isSome = true
        ↔ ∃ c ∈ icd_table, c.code = key) := by
  refine ⟨?_, ?_, ?_, fun key => cptLookup_isSome_iff cpt_table key,
    ?_, ?_, ?_, fun key => icdLookup_isSome_iff icd_table key⟩
  · exact enum_map_length _ _
  · exact enum_map_map _ _ _ (fun i a => rfl) _
  · exact enum_map_map _ _ _ (fun i a => rfl) _
  · exact enum_map_length _ _
  · exact enum_map_map _ _ _ (fun i a => rfl) _
  · exact enum_map_map _ _ _ (fun i a => rfl) _

theorem pdf_fold_segments :
    ∀ (pages : List (Option String)) (i : Nat) (acc : List String),
      (List.enumFrom i pages).foldl
        (fun acc it =>
          match it.2 with
          | some s => if s.isEmpty then acc else acc ++ [pageSegment it.1 s]
          | none => acc) acc
      = acc ++ pageSegmentsFrom i pages
  | [], _, acc => by simp [List.enumFrom, pageSegmentsFrom]
  | t :: rest, i, acc => by
    simp only [List.enumFrom, List.foldl_cons]
    cases t with
    | none =>
      dsimp only
      rw [pdf_fold_segments rest (i + 1) acc]
      simp [pageSegmentsFrom]
    | some s =>
      dsimp only
      by_cases hs : s.isEmpty
      · rw [if_pos hs, pdf_fold_segments rest (i + 1) acc]
        simp [pageSegmentsFrom, hs]
      · rw [if_neg hs, pdf_fold_segments rest (i + 1) (acc ++ [pageSegment i s])]
        simp [pageSegmentsFrom, hs]

/-- C4: for every readable PDF, the Text Extractor returns
`(full_text, page_count)` where `full_text` is the blank-line-separated
concatenation of the contributing page segments — each page with nonempty
extracted text contributing its 1-based marker-prefixed segment in page
order and pages yielding no extractable text contributing nothing — and
`page_count` is the total page count regardless of how many pages yielded
text; in particular the 2-page file with text only on page 1 yields exactly
the one segment `"--- Page 1 ---\nA"` and page count 2. -/
theorem C4_text_extractor (pages : List (Option String)) :
    (extract_text_from_pdf pages).2 = pages.length ∧
    (extract_text_from_pdf pages).1
      = String.intercalate "\n\n" (pageSegmentsSpec pages) ∧
    extract_text_from_pdf [some "A", none] = ("--- Page 1 ---\nA", 2) ∧
    pageSegmentsSpec [some "A", none] = ["--- Page 1 ---\nA"] := by
  refine ⟨rfl, ?_, by decide, by decide⟩
  show String.intercalate "\n\n"
      ((List.enumFrom 0 pages).foldl _ []) = _
  rw [pdf_fold_segments pages 0 []]
  rfl

/-- C6 counterexample: the claim says every string not in strict
4-digit-year/2-digit-month/2-digit-day form parses as absent, but strptime's
`%m`/`%d` directives also accept single digits: `"2024-3-5"` is not in the
strict form yet parses to the date 2024-03-05. -/
theorem C6_counterexample :
    parse_date (some "2024-3-5") = some ⟨2024, 3, 5⟩ ∧
    isStrictYmdForm "2024-3-5" = false := by
  constructor
  · decide
  · decide

/-- C6 amended: date-of-service parsing is total and never fails the
pipeline: an absent or empty string gives an absent result, the strict form
`"2024-03-05"` gives the corresponding date, a non-matching string such as
`"March 5 2024"` gives an absent result with no exception, and every date it
ever returns is a valid calendar date (the `%Y-%m-%d` pattern additionally
accepts 1- or 2-digit months and days, as the counterexample shows). -/
theorem C6_parse_date_amended :
    parse_date none = none ∧
    parse_date (some "") = none ∧
    parse_date (some "2024-03-05") = some ⟨2024, 3, 5⟩ ∧
    parse_date (some "March 5 2024") = none ∧
    (∀ s y m d, parse_date (some s) = some ⟨y, m, d⟩ →
      datetimeValid y m d = true) := by
  refine ⟨rfl, by decide, by decide, by decide, ?_⟩
  intro s y m d h
  simp only [parse_date] at h
  by_cases hs : s.isEmpty
  · rw [if_pos hs] at h
    exact absurd h (by simp)
  · rw [if_neg hs] at h
    cases hm : strptimeYmdMatch s.toList with
    | none =>
      rw [hm] at h
      exact absurd h (by simp)
    | some t =>
      rw [hm] at h
      obtain ⟨y', m', d', rem⟩ := t
      dsimp only at h
      by_cases hg : (rem.isEmpty && datetimeValid y' m' d') = true
      · rw [if_pos hg] at h
        simp only [Option.some.injEq, DateYMD.mk.injEq] at h
        obtain ⟨rfl, rfl, rfl⟩ := h
        exact ((Bool.and_eq_true _ _).mp hg).2
      · rw [if_neg hg] at h
        exact absurd h (by simp)

theorem C6_parse_date_amended_witness :
    datetimeValid 2024 3 5 = true :=
  C6_parse_date_amended.2.2.2.2 "2024-03-05" 2024 3 5 (by decide)

/-- C5 counterexample: the claim says the call fails only with the
"no valid extraction" error, but a `submit_extraction` tool block whose
input fails schema validation makes `ExtractionResult(**block.input)` raise
an uncaught pydantic `ValidationError` — a different failure — without ever
reaching the text fallback. -/
theorem C5_counterexample :
    extract_cpt_codes (fun _ : Nat => (none : Option ExtractionResult))
      (fun _ => (JsonParse.decodeError : JsonParse Nat))
      [ContentBlock.tool_use "submit_extraction" 0]
      = .error .validation_error ∧
    ClaudeError.validation_error ≠ ClaudeError.no_valid_extraction := by
  constructor
  · rfl
  · decide

theorem textFallbackLoop_skips_append {J : Type}
    (validate : J → Option ExtractionResult)
    (parseJson : String → JsonParse J) :
    ∀ (pre l : List (ContentBlock J)),
      (∀ b ∈ pre, fallbackSkips validate parseJson b = true) →
      textFallbackLoop validate parseJson (pre ++ l)
        = textFallbackLoop validate parseJson l
  | [], _, _ => rfl
  | b :: pre, l, h => by
    have hb := h b (List.mem_cons_self b pre)
    have hrest : ∀ x ∈ pre, fallbackSkips validate parseJson x = true :=
      fun x hx => h x (List.mem_cons_of_mem b hx)
    cases b with
    | tool_use n input =>
      simp only [List.cons_append, textFallbackLoop]
      exact textFallbackLoop_skips_append validate parseJson pre l hrest
    | text body =>
      cases hp : parseJson body with
      | decodeError =>
        simp only [List.cons_append, textFallbackLoop, hp]
        exact textFallbackLoop_skips_append validate parseJson pre l hrest
      | nonMapping => simp [fallbackSkips, hp] at hb
      | mapping obj =>
        cases hv : validate obj with
        | some r => simp [fallbackSkips, hp, hv] at hb
        | none =>
          simp only [List.cons_append, textFallbackLoop, hp, hv]
          exact textFallbackLoop_skips_append validate parseJson pre l hrest

theorem textFallbackLoop_no_valid_iff {J : Type}
    (validate : J → Option ExtractionResult)
    (parseJson : String → JsonParse J) :
    ∀ blocks : List (ContentBlock J),
      textFallbackLoop validate parseJson blocks
          = .error .no_valid_extraction
        ↔ ∀ b ∈ blocks, fallbackSkips validate parseJson b = true
  | [] => by simp [textFallbackLoop]
  | .tool_use n input :: rest => by
    simp only [textFallbackLoop]
    rw [textFallbackLoop_no_valid_iff validate parseJson rest]
    constructor
    · intro h b hb
      rcases List.mem_cons.mp hb with rfl | hb
      · rfl
      · exact h b hb
    · intro h b hb
      exact h b (List.mem_cons_of_mem _ hb)
  | .text body :: rest => by
    cases hp : parseJson body with
    | decodeError =>
      simp only [textFallbackLoop, hp]
      rw [textFallbackLoop_no_valid_iff validate parseJson rest]
      constructor
      · intro h b hb
        rcases List.mem_cons.mp hb with rfl | hb
        · simp [fallbackSkips, hp]
        · exact h b hb
      · intro h b hb
        exact h b (List.mem_cons_of_mem _ hb)
    | nonMapping =>
      simp only [textFallbackLoop, hp]
      constructor
      · intro h
        exact absurd h (by simp)
      · intro h
        have hx := h (.text body) (List.mem_cons_self _ _)
        simp [fallbackSkips, hp] at hx
    | mapping obj =>
      cases hv : validate obj with
      | some r =>
        simp only [textFallbackLoop, hp, hv]
        constructor
        · intro h
          exact absurd h (by simp)
        · intro h
          have hx := h (.text body) (List.mem_cons_self _ _)
          simp [fallbackSkips, hp, hv] at hx
      | none =>
        simp only [textFallbackLoop, hp, hv]
        rw [textFallbackLoop_no_valid_iff validate parseJson rest]
        constructor
        · intro h b hb
          rcases List.mem_cons.mp hb with rfl | hb
          · simp [fallbackSkips, hp, hv]
          · exact h b hb
        · intro h b hb
          exact h b (List.mem_cons_of_mem _ hb)

/-- C5 amended: the client resolves a response in this order: the first
`submit_extraction` tool block is authoritative — when its input validates
the call returns that result, and when it does not the call fails with an
uncaught validation error, never falling back to text; only when no such
tool block exists does the fallback scan the text blocks in order, skipping
those whose body fails JSON decoding or decodes to a mapping that fails
validation, accepting the first whose body decodes to a mapping that
validates, and aborting with an uncaught TypeError at the first whose body
decodes to a non-mapping JSON value; the call fails with the "no valid
extraction" error exactly when no such tool block exists and every text
block is skipped. -/
theorem C5_resolution_order {J : Type} (validate : J → Option ExtractionResult)
    (parseJson : String → JsonParse J)
    (blocks pre rest : List (ContentBlock J)) (body : String) (obj : J) :
    (∀ input r, blocks.findSome? submitToolInput = some input →
        validate input = some r →
        extract_cpt_codes validate parseJson blocks = .ok r) ∧
    (∀ input, blocks.findSome? submitToolInput = some input →
        validate input = none →
        extract_cpt_codes validate parseJson blocks
          = .error .validation_error) ∧
    ((pre ++ .text body :: rest).findSome? submitToolInput = none →
      (∀ b ∈ pre, fallbackSkips validate parseJson b = true) →
      parseJson body = .mapping obj →
      ∀ r, validate obj = some r →
        extract_cpt_codes validate parseJson (pre ++ .text body :: rest)
          = .ok r) ∧
    ((pre ++ .text body :: rest).findSome? submitToolInput = none →
      (∀ b ∈ pre, fallbackSkips validate parseJson b = true) →
      parseJson body = .nonMapping →
      extract_cpt_codes validate parseJson (pre ++ .text body :: rest)
        = .error .type_error) ∧
    (extract_cpt_codes validate parseJson blocks
        = .error .no_valid_extraction
      ↔ blocks.findSome? submitToolInput = none ∧
        ∀ b ∈ blocks, fallbackSkips validate parseJson b = true) := by
  refine ⟨?_, ?_, ?_, ?_, ?_⟩
  · intro input r h1 h2
    simp [extract_cpt_codes, h1, h2]
  · intro input h1 h2
    simp [extract_cpt_codes, h1, h2]
  · intro hnone hpre hp r hv
    simp only [extract_cpt_codes, hnone]
    rw [textFallbackLoop_skips_append validate parseJson pre _ hpre]
    simp [textFallbackLoop, hp, hv]
  · intro hnone hpre hp
    simp only [extract_cpt_codes, hnone]
    rw [textFallbackLoop_skips_append validate parseJson pre _ hpre]
    simp [textFallbackLoop, hp]
  · constructor
    · intro h
      cases h1 : blocks.findSome? submitToolInput with
      | some input =>
        simp only [extract_cpt_codes, h1] at h
        cases h2 : validate input with
        | some r => simp [h2] at h
        | none => simp [h2] at h
      | none =>
        refine ⟨rfl, ?_⟩
        simp only [extract_cpt_codes, h1] at h
        exact (textFallbackLoop_no_valid_iff validate parseJson blocks).mp h
    · intro h
      simp only [extract_cpt_codes, h.1]
      exact (textFallbackLoop_no_valid_iff validate parseJson blocks).mpr h.2

theorem C5_resolution_order_witness :
    extract_cpt_codes (fun n : Nat => if n = 0 then some sampleExtraction else none)
      (fun _ => JsonParse.decodeError) [ContentBlock.tool_use "submit_extraction" 0]
      = .ok sampleExtraction ∧
    extract_cpt_codes (fun n : Nat => if n = 0 then some sampleExtraction else none)
      (fun _ => JsonParse.decodeError) [ContentBlock.tool_use "submit_extraction" 1]
      = .error .validation_error ∧
    extract_cpt_codes (fun n : Nat => if n = 0 then some sampleExtraction else none)
      (fun s => if s = "good" then JsonParse.mapping 0 else JsonParse.decodeError)
      [ContentBlock.text "bad", ContentBlock.text "good"]
      = .ok sampleExtraction ∧
    extract_cpt_codes (fun n : Nat => if n = 0 then some sampleExtraction else none)
      (fun _ => (JsonParse.nonMapping : JsonParse Nat))
      [ContentBlock.text "42"] = .error .type_error ∧
    extract_cpt_codes (fun _ : Nat => (none : Option ExtractionResult))
      (fun _ => (JsonParse.decodeError : JsonParse Nat))
      [ContentBlock.text "x"] = .error .no_valid_extraction := by
  refine ⟨?_, ?_, ?_, ?_, ?_⟩
  · exact (C5_resolution_order _ _ _ [] [] "" 0).1 0 sampleExtraction
      (by decide) (by decide)
  · exact (C5_resolution_order _ _ _ [] [] "" 0).2.1 1 (by decide) (by decide)
  · exact (C5_resolution_order _ _ [] [ContentBlock.text "bad"] [] "good"
      0).2.2.1 (by decide) (by decide) (by decide) sampleExtraction (by decide)
  · exact (C5_resolution_order _ _ [] [] [] "42" 0).2.2.2.1 (by decide)
      (by decide) rfl
  · exact (C5_resolution_order (fun _ : Nat => (none : Option ExtractionResult))
      (fun _ => (JsonParse.decodeError : JsonParse Nat))
      [ContentBlock.text "x"] [] [] "" 0).2.2.2.2.mpr ⟨by decide, by decide⟩

theorem find?_none_on_filter_ne {α : Type} (l : List α) (f : α → Nat)
    (k : Nat) (p : α → Bool) (hp : ∀ a, p a = true → f a = k) :
    (l.filter (fun a => f a != k)).find? p = none := by
  rw [List.find?_eq_none]
  intro x hx hpx
  have hmem := List.mem_filter.mp hx
  have : f x ≠ k := by simpa using hmem.2
  exact this (hp x hpx)

theorem filter_eq_on_filter_ne {α : Type} (l : List α) (f : α → Nat)
    (k : Nat) :
    ((l.filter (fun a => f a != k)).filter (fun a => f a == k)) = [] := by
  rw [List.filter_eq_nil_iff]
  intro x hx
  have hmem := List.mem_filter.mp hx
  have : f x ≠ k := by simpa using hmem.2
  simpa using this

/-- C7: for every BillingNote, deleting it removes the note and every one
of its ExtractedCode and ExtractedDiagnosis child rows (cascade), so that a
subsequent fetch of the note, or of any code or diagnosis under that note
identity (in particular each former child), returns NotFound. -/
theorem C7_delete_cascade (st : AppState) (note_id : Nat)
    (note : BillingNote)
    (hn : st.billing_notes.find? (fun n => n.id == note_id) = some note) :
    get_billing_note (delete_billing_note st note_id).1 note_id
      = .error (.notFound "Billing note not found") ∧
    (delete_billing_note st note_id).1.extracted_codes.filter
        (fun c => c.billing_note_id == note_id) = [] ∧
    (delete_billing_note st note_id).1.extracted_diagnoses.filter
        (fun d => d.billing_note_id == note_id) = [] ∧
    (∀ code_id : Nat,
      lookup_extracted_code (delete_billing_note st note_id).1 note_id code_id
        = none) ∧
    (∀ diag_id : Nat,
      lookup_extracted_diagnosis (delete_billing_note st note_id).1 note_id
        diag_id = none) := by
  have hdel : (delete_billing_note st note_id).1 =
      { st with
        billing_notes := st.billing_notes.filter (fun n => n.id != note_id)
        extracted_codes :=
          st.extracted_codes.filter (fun c => c.billing_note_id != note_id)
        extracted_diagnoses :=
          st.extracted_diagnoses.filter
            (fun d => d.billing_note_id != note_id) } := by
    simp [delete_billing_note, hn]
  refine ⟨?_, ?_, ?_, ?_, ?_⟩
  · rw [get_billing_note, hdel]
    rw [find?_none_on_filter_ne st.billing_notes (fun n => n.id) note_id _
      (fun a ha => by simpa using ha)]
  · rw [hdel]
    exact filter_eq_on_filter_ne st.extracted_codes
      (fun c => c.billing_note_id) note_id
  · rw [hdel]
    exact filter_eq_on_filter_ne st.extracted_diagnoses
      (fun d => d.billing_note_id) note_id
  · intro code_id
    rw [lookup_extracted_code, hdel]
    exact find?_none_on_filter_ne st.extracted_codes
      (fun c => c.billing_note_id) note_id _
      (fun a ha => by simpa using (Bool.and_eq_true _ _).mp ha |>.2)
  · intro diag_id
    rw [lookup_extracted_diagnosis, hdel]
    exact find?_none_on_filter_ne st.extracted_diagnoses
      (fun d => d.billing_note_id) note_id _
      (fun a ha => by simpa using (Bool.and_eq_true _ _).mp ha |>.2)

theorem C7_delete_cascade_witness :
    get_billing_note (delete_billing_note sampleState 1).1 1
      = .error (.notFound "Billing note not found") ∧
    lookup_extracted_code (delete_billing_note sampleState 1).1 1 21 = none ∧
    lookup_extracted_diagnosis (delete_billing_note sampleState 1).1 1 22
      = none := by
  have h := C7_delete_cascade sampleState 1 sampleNote (by decide)
  exact ⟨h.1, h.2.2.2.1 21, h.2.2.2.2 22⟩

theorem mem_zip_self {α : Type} :
    ∀ (l : List α), ∀ pr ∈ l.zip l, pr.2 = pr.1
  | [], pr, h => by simp at h
  | x :: xs, pr, h => by
    rw [List.zip_cons_cons, List.mem_cons] at h
    rcases h with rfl | h
    · rfl
    · exact mem_zip_self xs pr h

theorem updateFirst_length {α : Type} (p : α → Bool) (f : α → α) :
    ∀ l : List α, (updateFirst p f l).length = l.length
  | [] => rfl
  | x :: xs => by
    simp only [updateFirst]
    by_cases hx : p x
    · rw [if_pos hx]
      simp
    · rw [if_neg hx]
      simp [updateFirst_length p f xs]

theorem updateFirst_zip_spec {α : Type} (p : α → Bool) (f : α → α) :
    ∀ l : List α, ∀ pr ∈ l.zip (updateFirst p f l),
      pr.2 = pr.1 ∨ (p pr.1 = true ∧ pr.2 = f pr.1)
  | [], pr, h => by simp [updateFirst] at h
  | x :: xs, pr, h => by
    simp only [updateFirst] at h
    by_cases hx : p x
    · rw [if_pos hx] at h
      rw [List.zip_cons_cons, List.mem_cons] at h
      rcases h with rfl | h
      · exact Or.inr ⟨hx, rfl⟩
      · exact Or.inl (mem_zip_self xs pr h)
    · rw [if_neg hx] at h
      rw [List.zip_cons_cons, List.mem_cons] at h
      rcases h with rfl | h
      · exact Or.inl rfl
      · exact updateFirst_zip_spec p f xs pr h

/-- C8: a confirm/unconfirm request naming a note and a code where no code
row carries both that identity and that note membership — in particular a
mismatched note/code pair, or a nonexistent code — returns NotFound with the
state untouched (every field of every code unchanged); only when the code
exists under the named note is its `confirmed` flag set to the requested
value, every other field and row being left unchanged. -/
theorem C8_confirm_mismatch (st : AppState) (note_id code_id : Nat)
    (b : Bool) :
    ((∀ c ∈ st.extracted_codes, c.id = code_id → c.billing_note_id ≠ note_id) →
      confirm_extracted_code st note_id code_id b
        = (st, .error (.notFound "Extracted code not found"))) ∧
    (∀ c, lookup_extracted_code st note_id code_id = some c →
      (confirm_extracted_code st note_id code_id b).2 = .ok b ∧
      (confirm_extracted_code st note_id code_id b).1.documents
        = st.documents ∧
      (confirm_extracted_code st note_id code_id b).1.billing_notes
        = st.billing_notes ∧
      (confirm_extracted_code st note_id code_id b).1.extracted_diagnoses
        = st.extracted_diagnoses ∧
      (confirm_extracted_code st note_id code_id b).1.extracted_codes.length
        = st.extracted_codes.length ∧
      (∀ pr ∈ st.extracted_codes.zip
          (confirm_extracted_code st note_id code_id b).1.extracted_codes,
        pr.2 = pr.1 ∨
          (pr.1.id = code_id ∧ pr.1.billing_note_id = note_id ∧
           pr.2 = { pr.1 with confirmed := b }))) := by
  constructor
  · intro hmiss
    have hnone : lookup_extracted_code st note_id code_id = none := by
      rw [lookup_extracted_code, List.find?_eq_none]
      intro c hc hpc
      obtain ⟨h1, h2⟩ := (Bool.and_eq_true _ _).mp hpc
      exact hmiss c hc (by simpa using h1) (by simpa using h2)
    rw [confirm_extracted_code, hnone]
  · intro c hc
    have hconf : confirm_extracted_code st note_id code_id b =
        ({ st with
           extracted_codes := updateFirst
             (fun x => x.id == code_id && x.billing_note_id == note_id)
             (fun x => { x with confirmed := b }) st.extracted_codes },
         .ok b) := by
      rw [confirm_extracted_code, hc]
    rw [hconf]
    refine ⟨rfl, rfl, rfl, rfl, updateFirst_length _ _ _, ?_⟩
    intro pr hpr
    rcases updateFirst_zip_spec _ _ st.extracted_codes pr hpr with h | ⟨hp, hf⟩
    · exact Or.inl h
    · obtain ⟨h1, h2⟩ := (Bool.and_eq_true _ _).mp hp
      exact Or.inr ⟨by simpa using h1, by simpa using h2, hf⟩

theorem C8_confirm_mismatch_witness :
    confirm_extracted_code sampleState 1 99 true
      = (sampleState, .error (.notFound "Extracted code not found")) ∧
    (confirm_extracted_code sampleState 1 21 true).2 = .ok true :=
  ⟨(C8_confirm_mismatch sampleState 1 99 true).1 (by decide),
   ((C8_confirm_mismatch sampleState 1 21 true).2 sampleCode (by decide)).1⟩

/-- C9: the manual-add operations never cross-reference the canonical
tables: whatever the reference tables contain — in particular even when the
supplied raw code exactly matches a canonical code — the created
ExtractedCode has an empty canonical reference and starts unconfirmed, the
created ExtractedDiagnosis has an empty canonical reference, and swapping
the reference tables for any others leaves the created row identical. -/
theorem C9_manual_add_no_crossref (st : AppState) (note_id new_cid new_did : Nat)
    (body : AddCodeRequest) (dbody : AddDiagnosisRequest) (note : BillingNote)
    (h : st.billing_notes.find? (fun n => n.id == note_id) = some note) :
    (add_extracted_code st note_id body new_cid).2.toOption.map
        (fun c => c.cpt_code_id) = some none ∧
    (add_extracted_code st note_id body new_cid).2.toOption.map
        (fun c => c.confirmed) = some false ∧
    (add_extracted_code st note_id body new_cid).2.toOption.map
        (fun c => c.cpt_code_raw) = some body.cpt_code_raw ∧
    (∀ table : List CPTCode,
      (add_extracted_code { st with cpt_codes := table } note_id body new_cid).2
        = (add_extracted_code st note_id body new_cid).2) ∧
    (add_extracted_diagnosis st note_id dbody new_did).2.toOption.map
        (fun d => d.icd10_code_id) = some none ∧
    (add_extracted_diagnosis st note_id dbody new_did).2.toOption.map
        (fun d => d.icd10_code_raw) = some dbody.icd10_code_raw ∧
    (∀ table : List ICD10Code,
      (add_extracted_diagnosis { st with icd10_codes := table } note_id dbody
          new_did).2
        = (add_extracted_diagnosis st note_id dbody new_did).2) := by
  refine ⟨?_, ?_, ?_, ?_, ?_, ?_, ?_⟩
  · simp only [add_extracted_code, h]
    rfl
  · simp only [add_extracted_code, h]
    rfl
  · simp only [add_extracted_code, h]
    rfl
  · intro table
    simp [add_extracted_code, h]
  · simp only [add_extracted_diagnosis, h]
    rfl
  · simp only [add_extracted_diagnosis, h]
    rfl
  · intro table
    simp [add_extracted_diagnosis, h]

theorem C9_manual_add_no_crossref_witness :
    (add_extracted_code sampleState 1
        { cpt_code_raw := "95819", description := none
          supporting_text := none, confidence := none } 31).2.toOption.map
      (fun c => c.cpt_code_id) = some none ∧
    (add_extracted_diagnosis sampleState 1
        { icd10_code_raw := "G40.309", description := none
          supporting_text := none, confidence := none
          is_primary := false } 32).2.toOption.map
      (fun d => d.icd10_code_id) = some none := by
  have h := C9_manual_add_no_crossref sampleState 1 31 32
    { cpt_code_raw := "95819", description := none, supporting_text := none
      confidence := none }
    { icd10_code_raw := "G40.309", description := none
      supporting_text := none, confidence := none, is_primary := false }
    sampleNote (by decide)
  exact ⟨h.1, h.2.2.2.2.1⟩

theorem process_after_text_frame (deps : ProcessDeps) (st : AppState)
    (document : Document) :
    (process_after_text deps st document).1.documents = st.documents ∧
    (process_after_text deps st document).1.extract_calls
      = st.extract_calls := by
  cases h : deps.claude (document.extracted_text.getD "") with
  | error e => simp [process_after_text, h]
  | ok extraction => simp [process_after_text, h]

theorem find?_updateFirst_self {α : Type} (p : α → Bool) (f : α → α)
    (l : List α) (a : α) (h : l.find? p = some a) (hf : p (f a) = true) :
    (updateFirst p f l).find? p = some (f a) := by
  induction l with
  | nil => simp at h
  | cons x xs ih =>
    by_cases hx : p x
    · rw [List.find?_cons_of_pos _ hx] at h
      injection h with h
      subst h
      simp only [updateFirst, if_pos hx]
      rw [List.find?_cons_of_pos _ hf]
    · rw [List.find?_cons_of_neg _ hx] at h
      simp only [updateFirst, if_neg hx]
      rw [List.find?_cons_of_neg _ hx]
      exact ih h

/-- C2 counterexample: the claim says the Text Extractor runs at most once
per Document regardless of how many processing attempts occur, but the
presence check is Python truthiness (`if not document.extracted_text`), so a
document whose extraction yields the empty string is treated as unextracted
on every subsequent call: two processing calls on such a document invoke
the extractor twice. -/
theorem C2_counterexample :
    (process_document emptyTextDeps
        (process_document emptyTextDeps unprocessedState 7).1 7).1.extract_calls
      = ["up/7_scan.pdf", "up/7_scan.pdf"] := by
  decide

/-- C2 amended: the Text Extractor is invoked only when the Document's
extracted text is absent or empty; a processing call on a Document whose
text is present and nonempty never invokes it and leaves the document rows
unchanged, and therefore once a processing call has extracted and persisted
nonempty text, any further processing call performs no extractor invocation
and leaves the persisted text and page count unchanged. (The at-most-once
bound of the original claim fails exactly for documents whose extraction
yields empty text, per the counterexample.) -/
theorem C2_text_extraction_amended (deps deps2 : ProcessDeps)
    (st : AppState) (document_id : Nat) (d : Document)
    (hd : st.documents.find? (fun x => x.id == document_id) = some d) :
    (strFalsy d.extracted_text = false →
      (process_document deps st document_id).1.extract_calls
        = st.extract_calls ∧
      (process_document deps st document_id).1.documents = st.documents) ∧
    (∀ text pc, strFalsy d.extracted_text = true →
      deps.extract_text d.file_path = .ok (text, pc) →
      text.isEmpty = false →
      (process_document deps2 (process_document deps st document_id).1
          document_id).1.extract_calls
        = (process_document deps st document_id).1.extract_calls ∧
      (process_document deps2 (process_document deps st document_id).1
          document_id).1.documents
        = (process_document deps st document_id).1.documents) := by
  constructor
  · intro hfalse
    have h1 : process_document deps st document_id
        = process_after_text deps st d := by
      simp only [process_document, hd, hfalse]
      simp
    rw [h1]
    exact ⟨(process_after_text_frame deps st d).2,
      (process_after_text_frame deps st d).1⟩
  · intro text pc hfalsy hex hne
    have h1 : process_document deps st document_id
        = process_after_text deps
            { st with
              extract_calls := st.extract_calls ++ [d.file_path]
              documents := updateFirst (fun x => x.id == document_id)
                (fun x => { x with extracted_text := some text, page_count := some pc })
                st.documents }
            { d with extracted_text := some text, page_count := some pc } := by
      simp only [process_document, hd, hfalsy, hex]
      simp
    have hpd : ((fun x : Document => x.id == document_id) d) = true := by
      simpa using List.find?_some hd
    have hdoc1 : (process_document deps st document_id).1.documents
        = updateFirst (fun x => x.id == document_id)
            (fun x => { x with extracted_text := some text, page_count := some pc })
            st.documents := by
      rw [h1]
      exact (process_after_text_frame _ _ _).1
    have hfind2 : (process_document deps st document_id).1.documents.find?
        (fun x => x.id == document_id)
        = some { d with extracted_text := some text, page_count := some pc } := by
      rw [hdoc1]
      exact find?_updateFirst_self _ _ st.documents d hd (by simpa using hpd)
    have h2 : ∀ st1 : AppState,
        st1.documents.find? (fun x => x.id == document_id)
          = some { d with extracted_text := some text, page_count := some pc } →
        process_document deps2 st1 document_id
          = process_after_text deps2 st1
              { d with extracted_text := some text, page_count := some pc } := by
      intro st1 hf
      simp only [process_document, hf]
      simp [strFalsy, hne]
    rw [h2 _ hfind2]
    exact ⟨(process_after_text_frame _ _ _).2, (process_after_text_frame _ _ _).1⟩

theorem C2_text_extraction_amended_witness :
    (process_document textDeps (process_document textDeps unprocessedState 7).1
        7).1.extract_calls
      = (process_document textDeps unprocessedState 7).1.extract_calls :=
  ((C2_text_extraction_amended textDeps textDeps unprocessedState 7
      unprocessedDoc (by decide)).2 "Visit note" 2 (by decide) rfl
      (by decide)).1

theorem updateFirst_append_singleton {α : Type} (p : α → Bool) (f : α → α)
    (l : List α) (a : α) (hl : ∀ x ∈ l, p x = false) (ha : p a = true) :
    updateFirst p f (l ++ [a]) = l ++ [f a] := by
  induction l with
  | nil => simp [updateFirst, ha]
  | cons x xs ih =>
    have hx : p x = false := hl x (List.mem_cons_self x xs)
    simp only [List.cons_append, updateFirst, hx]
    simp only [Bool.false_eq_true, if_false]
    exact congrArg (fun t => x :: t)
      (ih (fun y hy => hl y (List.mem_cons_of_mem x hy)))

theorem find?_append_singleton {α : Type} (p : α → Bool) (l : List α)
    (a : α) (hl : ∀ x ∈ l, p x = false) (ha : p a = true) :
    (l ++ [a]).find? p = some a := by
  induction l with
  | nil => simp [List.find?, ha]
  | cons x xs ih =>
    have hx : p x = false := hl x (List.mem_cons_self x xs)
    rw [List.cons_append, List.find?_cons_of_neg _ (by simp [hx])]
    exact ih (fun y hy => hl y (List.mem_cons_of_mem x hy))

theorem process_document_documents_shape (deps : ProcessDeps) (st : AppState)
    (document_id : Nat) :
    (process_document deps st document_id).1.documents = st.documents ∨
    ∃ text pc, (process_document deps st document_id).1.documents
      = updateFirst (fun x => x.id == document_id)
          (fun x => { x with extracted_text := some text, page_count := some pc })
          st.documents := by
  cases hd : st.documents.find? (fun d => d.id == document_id) with
  | none =>
    left
    simp [process_document, hd]
  | some document =>
    by_cases hf : strFalsy document.extracted_text = true
    · cases hex : deps.extract_text document.file_path with
      | error e =>
        left
        simp [process_document, hd, hf, hex]
      | ok tp =>
        right
        refine ⟨tp.1, tp.2, ?_⟩
        have h1 : process_document deps st document_id
            = process_after_text deps
                { st with
                  extract_calls := st.extract_calls ++ [document.file_path]
                  documents := updateFirst (fun x => x.id == document_id)
                    (fun x => { x with extracted_text := some tp.1, page_count := some tp.2 })
                    st.documents }
                { document with extracted_text := some tp.1, page_count := some tp.2 } := by
          simp only [process_document, hd, hf, hex]
          simp
        rw [h1]
        exact (process_after_text_frame _ _ _).1
    · left
      have h1 : process_document deps st document_id
          = process_after_text deps st document := by
        simp only [process_document, hd]
        simp [hf]
      rw [h1]
      exact (process_after_text_frame _ _ _).1

theorem upload_fresh_spec (udeps : UploadDeps) (pdeps : ProcessDeps)
    (st : AppState) (filename : String) (content : List Nat) (h : String)
    (hfresh : ∀ x ∈ st.documents, x.id ≠ udeps.new_id) :
    ∃ dfin : Document,
      (upload_fresh udeps pdeps st filename content h).1.documents
        = st.documents ++ [dfin] ∧
      (upload_fresh udeps pdeps st filename content h).2 = .ok dfin ∧
      dfin.id = udeps.new_id ∧
      dfin.file_hash = some h := by
  have hl : ∀ x ∈ st.documents, (x.id == udeps.new_id) = false := by
    intro x hx
    simpa using hfresh x hx
  obtain ⟨doc2, hdoc2, hid2, hhash2⟩ :
      ∃ doc2 : Document,
        (process_document pdeps
          { st with
            storage_objects := st.storage_objects ++
              [("pdfs/" ++ (toString udeps.new_id ++ "_" ++ filename), content)]
            local_files := st.local_files ++
              [(udeps.upload_dir ++ "/" ++ (toString udeps.new_id ++ "_" ++ filename),
                content)]
            documents := st.documents ++
              [{ id := udeps.new_id, filename := filename
                 file_path := udeps.upload_dir ++ "/"
                   ++ (toString udeps.new_id ++ "_" ++ filename)
                 file_hash := some h, extracted_text := none, page_count := none
                 uploaded_at := udeps.now }] }
          udeps.new_id).1.documents = st.documents ++ [doc2]
        ∧ doc2.id = udeps.new_id ∧ doc2.file_hash = some h := by
    rcases process_document_documents_shape pdeps
      { st with
        storage_objects := st.storage_objects ++
          [("pdfs/" ++ (toString udeps.new_id ++ "_" ++ filename), content)]
        local_files := st.local_files ++
          [(udeps.upload_dir ++ "/" ++ (toString udeps.new_id ++ "_" ++ filename),
            content)]
        documents := st.documents ++
          [{ id := udeps.new_id, filename := filename
             file_path := udeps.upload_dir ++ "/"
               ++ (toString udeps.new_id ++ "_" ++ filename)
             file_hash := some h, extracted_text := none, page_count := none
             uploaded_at := udeps.now }] }
      udeps.new_id with hcase | ⟨text, pc, hcase⟩
    · dsimp only at hcase
      exact ⟨_, hcase, rfl, rfl⟩
    · dsimp only at hcase
      rw [updateFirst_append_singleton _ _ st.documents _ hl (by simp)] at hcase
      exact ⟨_, hcase, rfl, rfl⟩
  simp only [upload_fresh]
  rw [hdoc2]
  rw [updateFirst_append_singleton _ _ st.documents doc2 hl (by simp [hid2])]
  rw [find?_append_singleton _ st.documents _ hl (by simp [hid2])]
  exact ⟨_, rfl, rfl, hid2, hhash2⟩

/-- C10: when an upload's content hash matches an existing Document, the
upload returns that very row with every field unchanged (in particular the
stored filename stays the original; the newly uploaded filename and bytes
are discarded) and the whole state is untouched: no document row, storage
object or local file is created or modified and no processing runs. -/
theorem C10_duplicate_upload_frame (udeps : UploadDeps) (pdeps : ProcessDeps)
    (st : AppState) (filename : String) (content : List Nat) (d : Document)
    (hname : isAcceptedPdfName filename = true)
    (hdup : st.documents.find?
      (fun x => x.file_hash == some (udeps.hash content)) = some d) :
    upload_document udeps pdeps st filename content = (st, .ok d) := by
  simp [upload_document, hname, hdup]

theorem C10_duplicate_upload_frame_witness :
    upload_document
      { hash := fun _ => "abc", new_id := 50, upload_dir := "up", now := 3 }
      textDeps sampleState "another.pdf" [9, 9]
      = (sampleState, .ok sampleDoc) :=
  C10_duplicate_upload_frame _ _ _ _ _ _ (by decide) (by decide)

/-- C3: uploading identical raw bytes twice short-circuits the second
upload: it returns the same Document as the first upload did, and the state
after the second upload is exactly the state after the first — no second
storage object, no second document row, no local file and no processing of
any kind. (The hash functions agree on the shared bytes; the first upload's
generated identity is fresh for the starting state.) -/
theorem C3_duplicate_upload (udeps1 udeps2 : UploadDeps)
    (pdeps1 pdeps2 : ProcessDeps) (st : AppState) (fn1 fn2 : String)
    (content : List Nat) (d1 : Document)
    (hname1 : isAcceptedPdfName fn1 = true)
    (hname2 : isAcceptedPdfName fn2 = true)
    (hhash : udeps2.hash content = udeps1.hash content)
    (hfresh : ∀ x ∈ st.documents, x.id ≠ udeps1.new_id)
    (hfirst : (upload_document udeps1 pdeps1 st fn1 content).2 = .ok d1) :
    upload_document udeps2 pdeps2
        (upload_document udeps1 pdeps1 st fn1 content).1 fn2 content
      = ((upload_document udeps1 pdeps1 st fn1 content).1, .ok d1) := by
  cases hd : st.documents.find?
      (fun x => x.file_hash == some (udeps1.hash content)) with
  | some e =>
    have h1 : upload_document udeps1 pdeps1 st fn1 content = (st, .ok e) := by
      simp [upload_document, hname1, hd]
    have hde : d1 = e := by
      have h2 := hfirst
      rw [h1] at h2
      exact (Except.ok.inj h2).symm
    subst hde
    rw [h1]
    simp [upload_document, hname2, hhash, hd]
  | none =>
    have h1 : upload_document udeps1 pdeps1 st fn1 content
        = upload_fresh udeps1 pdeps1 st fn1 content (udeps1.hash content) := by
      simp [upload_document, hname1, hd]
    obtain ⟨dfin, hdocs, hres, hid, hhash1⟩ :=
      upload_fresh_spec udeps1 pdeps1 st fn1 content (udeps1.hash content) hfresh
    have hd1 : d1 = dfin := by
      have h2 := hfirst
      rw [h1] at h2
      exact (Except.ok.inj (hres.symm.trans h2)).symm
    subst hd1
    have hlneg : ∀ x ∈ st.documents,
        (x.file_hash == some (udeps1.hash content)) = false := by
      intro x hx
      have hnx := List.find?_eq_none.mp hd x hx
      simpa using hnx
    have hfind2 : (upload_document udeps1 pdeps1 st fn1 content).1.documents.find?
        (fun x => x.file_hash == some (udeps2.hash content)) = some d1 := by
      rw [h1, hdocs, hhash]
      exact find?_append_singleton _ st.documents d1 hlneg (by simp [hhash1])
    generalize hG : (upload_document udeps1 pdeps1 st fn1 content).1 = st1
      at hfind2 ⊢
    simp [upload_document, hname2, hfind2]

theorem C3_duplicate_upload_witness :
    upload_document
        { hash := fun _ => "H", new_id := 51, upload_dir := "up", now := 4 }
        textDeps
        (upload_document
          { hash := fun _ => "H", new_id := 50, upload_dir := "up", now := 3 }
          textDeps unprocessedState "a.pdf" [1, 2]).1 "b.pdf" [1, 2]
      = ((upload_document
            { hash := fun _ => "H", new_id := 50, upload_dir := "up", now := 3 }
            textDeps unprocessedState "a.pdf" [1, 2]).1,
         .ok { id := 50, filename := "a.pdf", file_path := "pdfs/50_a.pdf"
               file_hash := some "H", extracted_text := some "Visit note"
               page_count := some 2, uploaded_at := 3 }) :=
  C3_duplicate_upload _ _ _ _ _ _ _ _ _ (by decide) (by decide) rfl
    (by decide) rfl
